import Mathlib

/-!
Verification of the task-tracker frontend client.

This file gives a shallow embedding of the client-side logic of the
repository and proves properties of it:

* the data model (`Task`, `ProjectDetail`, `UpdateTaskData`, ...) from the
  TypeScript interfaces in the API service module;
* the `apiRequest` helper (bearer-token HTTP wrapper with a special case
  for binary responses);
* the optimistic task-update mutation (`onMutate` / `onError` /
  `onSettled` callbacks of `updateTaskMutation` in the project detail
  page), modelled as explicit cache-state transformers;
* the export watcher (`createExportMutation.onSuccess`), a
  `setInterval`-driven polling loop, modelled as a discrete-time step
  relation in which each issued status request resolves after a given
  latency, so that overlapping in-flight requests are representable.
-/

set_option autoImplicit false

namespace TaskTracker

/-! ## Data model (TypeScript interfaces of the API service module) -/

/-- Task status enumeration: `'TODO' | 'IN_PROGRESS' | 'DONE'`. -/
inductive TaskStatus
  | todo
  | inProgress
  | done
  deriving DecidableEq, Repr

/-- Task priority enumeration: `'LOW' | 'MEDIUM' | 'HIGH'`. -/
inductive TaskPriority
  | low
  | medium
  | high
  deriving DecidableEq, Repr

/-- The optional embedded assignee record of a task. -/
structure Assignee where
  id : String
  name : String
  email : String
  deriving DecidableEq, Repr

/-- The `Task` interface. -/
structure Task where
  id : String
  projectId : String
  title : String
  description : Option String
  status : TaskStatus
  priority : TaskPriority
  assignedTo : Option String
  dueDate : Option String
  createdAt : String
  assignee : Option Assignee
  deriving DecidableEq, Repr

/-- The `ProjectDetail` interface: a project together with its tasks. -/
structure ProjectDetail where
  id : String
  name : String
  description : Option String
  ownerId : String
  createdAt : String
  tasks : List Task
  deriving DecidableEq, Repr

/-- The `UpdateTaskData` interface: every field optional; an absent field
is `none` and leaves the task field unchanged on merge. -/
structure UpdateTaskData where
  title : Option String
  description : Option String
  status : Option TaskStatus
  priority : Option TaskPriority
  assignedTo : Option String
  dueDate : Option String
  deriving DecidableEq, Repr

/-- The object spread `{ ...task, ...data }` used in the optimistic update:
each field present in the update overrides the task's field. -/
def mergeTask (t : Task) (d : UpdateTaskData) : Task :=
  { t with
    title := d.title.getD t.title
    description := (d.description.map some).getD t.description
    status := d.status.getD t.status
    priority := d.priority.getD t.priority
    assignedTo := (d.assignedTo.map some).getD t.assignedTo
    dueDate := (d.dueDate.map some).getD t.dueDate }

/-! ## The React Query cache for the key `['project', id]`

The project detail page touches a single cache key.  Its state is the
optional cached `ProjectDetail` plus an invalidation flag (set by
`invalidateQueries`, which marks the key stale so the next read refetches). -/

/-- Cache state for the `['project', id]` key. -/
structure CacheState where
  value : Option ProjectDetail
  invalidated : Bool
  deriving DecidableEq, Repr

/-- The mutation context returned by `onMutate` and handed to `onError`:
it captures the pre-patch snapshot `previousProject`. -/
structure MutationCtx where
  previousProject : Option ProjectDetail
  deriving DecidableEq, Repr

/-- The patch function passed to `setQueryData` in
`updateTaskMutation.onMutate`: `if (!old) return old;` else map over the
tasks, merging the update into the task whose id matches. -/
def patchProject (taskId : String) (d : UpdateTaskData) :
    Option ProjectDetail → Option ProjectDetail
  | none => none
  | some old =>
      some { old with
              tasks := old.tasks.map fun t =>
                if t.id = taskId then mergeTask t d else t }

/-- `updateTaskMutation.onMutate`: snapshot the cached value, apply the
optimistic patch, and return the context holding the snapshot. -/
def onMutateStep (taskId : String) (d : UpdateTaskData) (c : CacheState) :
    MutationCtx × CacheState :=
  (⟨c.value⟩, { c with value := patchProject taskId d c.value })

/-- `updateTaskMutation.onError`: `if (context?.previousProject)` restore
the snapshot with `setQueryData`; when the snapshot is `none` (empty
cache) the rollback is skipped. -/
def onErrorStep (ctx : MutationCtx) (c : CacheState) : CacheState :=
  match ctx.previousProject with
  | some prev => { c with value := some prev }
  | none => c

/-- `updateTaskMutation.onSettled`: unconditionally invalidate the
`['project', id]` key. -/
def onSettledStep (c : CacheState) : CacheState :=
  { c with invalidated := true }

/-- Whether the backing server call of a mutation succeeded or failed. -/
inductive MutationResult
  | success
  | failure
  deriving DecidableEq, Repr

/-- One full task-update mutation cycle against the cache: `onMutate`,
then on failure `onError`, then `onSettled` in either case. -/
def runUpdateTaskMutation (taskId : String) (d : UpdateTaskData)
    (res : MutationResult) (c : CacheState) : CacheState :=
  let s := onMutateStep taskId d c
  let c2 :=
    match res with
    | .success => s.2
    | .failure => onErrorStep s.1 s.2
  onSettledStep c2

/-- Reading the cache key (`getQueryData`). -/
def readCache (c : CacheState) : Option ProjectDetail :=
  c.value

/-- The status of the task with the given id inside an optional cached
project, used to observe the effect of patches and rollbacks. -/
def taskStatusIn (v : Option ProjectDetail) (taskId : String) :
    Option TaskStatus :=
  (v.bind fun p => p.tasks.find? fun t => t.id == taskId).map Task.status

/-! ## The API gateway client (`apiRequest` in the API service module) -/

/-- The `error` member of the JSON error envelope
`{ success: false, error: { code, message } }`; either field may be
missing in a malformed envelope. -/
structure ErrorInfo where
  code : Option String
  message : Option String
  deriving DecidableEq, Repr

/-- A parsed JSON response body: optional `error` envelope and an opaque
`data` payload. -/
structure ResponseBody where
  error : Option ErrorInfo
  payload : Option String
  deriving DecidableEq, Repr

/-- An HTTP response as `apiRequest` observes it: the `ok` flag, the body
parsed as JSON (`none` when `response.json()` would throw), and the raw
bytes for `response.blob()`. -/
structure HttpResponse where
  ok : Bool
  json : Option ResponseBody
  raw : String
  deriving DecidableEq, Repr

/-- A successful `apiRequest` outcome: the `data` member of the JSON
envelope, or the raw blob for binary requests. -/
inductive ApiResult
  | jsonData (payload : Option String)
  | blobData (raw : String)
  deriving DecidableEq, Repr

/-- A failed `apiRequest` outcome: the thrown
`new Error(data.error?.message || 'Request failed')`, which carries a
message string only, or the exception of a failing `response.json()`. -/
inductive ApiFailure
  | requestFailed (message : String)
  | jsonParseError
  deriving DecidableEq, Repr

/-- The JavaScript `||` fallback on an optional string, as used in
`data.error?.message || 'Request failed'`: an absent message and an
empty (falsy) message both select the fallback. -/
def jsStringOr (m : Option String) (fallback : String) : String :=
  match m with
  | some s => if s = "" then fallback else s
  | none => fallback

/-- The binary-response test in `apiRequest`:
`options.headers && options.headers['Accept'] === 'application/octet-stream'`. -/
def acceptsOctetStream (optHeaders : Option (List (String × String))) : Bool :=
  match optHeaders with
  | none => false
  | some hs => hs.lookup "Accept" == some "application/octet-stream"

/-- The `apiRequest` helper, after the fetch resolved to `resp`: binary
requests return `response.blob()` before any status check; otherwise the
body is parsed, and a non-`ok` status throws an error built from
`data.error?.message` with the `'Request failed'` fallback. -/
def apiRequest (optHeaders : Option (List (String × String)))
    (resp : HttpResponse) : Except ApiFailure ApiResult :=
  if acceptsOctetStream optHeaders then
    .ok (.blobData resp.raw)
  else
    match resp.json with
    | none => .error .jsonParseError
    | some body =>
        if resp.ok then
          .ok (.jsonData body.payload)
        else
          .error (.requestFailed
            (jsStringOr (body.error.bind ErrorInfo.message) "Request failed"))

/-! ## The export watcher (`createExportMutation.onSuccess`)

The code arms `setInterval(async cb, 1000)` after the create-export call
succeeds.  We model the ensuing execution on a discrete clock with one
step per interval tick.  `responses i` is the job status the `i`-th
issued status request eventually reports (or a thrown transport error),
and `durations i` is how many ticks that request takes to resolve.

At each step, first every in-flight request whose resolve time has
arrived runs its continuation (the body of the interval callback after
`await exportApi.getStatus(...)`): `COMPLETED` clears the interval and
triggers the download; `FAILED` clears the interval and alerts the user;
`PENDING`/`PROCESSING` does nothing; a thrown error clears the interval
and logs to the console.  Then, if the interval is still armed, the tick
fires and issues the next status request.  Clearing the interval stops
future ticks but cannot recall requests already in flight. -/

/-- The outcome the `i`-th status request eventually delivers. -/
inductive PollOutcome
  | statusPending
  | statusCompleted
  | statusFailed
  | transportError
  deriving DecidableEq, Repr

/-- Observable state of one export watch: whether the interval timer is
armed, the in-flight status requests as `(request index, resolve time)`
pairs, how many requests were issued, and counters for the side effects
(download, user alert, console error) plus the `isExporting` flag. -/
structure WatcherState where
  timerActive : Bool
  pending : List (Nat × Nat)
  issued : Nat
  downloads : Nat
  alerts : Nat
  consoleErrors : Nat
  isExporting : Bool
  deriving DecidableEq, Repr

/-- State right after `createExportMutation.onSuccess` armed the interval:
timer active, `setIsExporting(true)`, nothing in flight. -/
def watcherInit : WatcherState :=
  { timerActive := true
    pending := []
    issued := 0
    downloads := 0
    alerts := 0
    consoleErrors := 0
    isExporting := true }

/-- The continuation of the interval callback once the status request
`idx` resolves: the `if`/`else if`/`catch` chain of the source. -/
def handleResolution (responses : Nat → PollOutcome) (idx : Nat)
    (s : WatcherState) : WatcherState :=
  match responses idx with
  | .statusPending => s
  | .statusCompleted =>
      { s with timerActive := false, isExporting := false
               downloads := s.downloads + 1 }
  | .statusFailed =>
      { s with timerActive := false, isExporting := false
               alerts := s.alerts + 1 }
  | .transportError =>
      { s with timerActive := false, isExporting := false
               consoleErrors := s.consoleErrors + 1 }

/-- One clock tick at time `t`: resolve every due in-flight request in
issue order, then, if the interval is still armed, fire the tick and
issue the next status request (resolving `durations` ticks later). -/
def watcherStep (responses : Nat → PollOutcome) (durations : Nat → Nat)
    (t : Nat) (s : WatcherState) : WatcherState :=
  let resolvedNow := s.pending.filter fun p => decide (p.2 ≤ t)
  let stillPending := s.pending.filter fun p => decide (t < p.2)
  let s1 := resolvedNow.foldl (fun acc p => handleResolution responses p.1 acc)
      { s with pending := stillPending }
  if s1.timerActive then
    { s1 with
      pending := s1.pending ++ [(s1.issued, t + durations s1.issued)]
      issued := s1.issued + 1 }
  else
    s1

/-- The watcher execution: state after `n` clock ticks. -/
def watcherRun (responses : Nat → PollOutcome) (durations : Nat → Nat) :
    Nat → WatcherState
  | 0 => watcherInit
  | n + 1 => watcherStep responses durations (n + 1)
      (watcherRun responses durations n)

/-- Unit request latency: every status request resolves within one
interval tick, so polls never overlap. -/
def unitDurations : Nat → Nat := fun _ => 1

/-- The watcher state reached after `n` ticks while every resolved
request reported `PENDING`/`PROCESSING` and requests have unit latency:
timer armed, exactly the most recent request in flight. -/
def watcherMid (n : Nat) : WatcherState :=
  { timerActive := true
    pending := if n = 0 then [] else [(n - 1, n + 1)]
    issued := n
    downloads := 0
    alerts := 0
    consoleErrors := 0
    isExporting := true }

/-- The absorbing state after a terminal resolution of request `k` under
unit latency: timer cleared, nothing in flight, side-effect counters as
given. -/
def watcherDone (k dl al ce : Nat) : WatcherState :=
  { timerActive := false
    pending := []
    issued := k + 1
    downloads := dl
    alerts := al
    consoleErrors := ce
    isExporting := false }

/-! ## Concrete executions used as test vectors -/

/-- A job whose status reads all report `COMPLETED`. -/
def completedResponses : Nat → PollOutcome := fun _ => .statusCompleted

/-- A slow network: the first status request takes 3 ticks, later ones
2 ticks, so requests overlap the 1-tick interval grid. -/
def slowDurations : Nat → Nat := fun i => if i = 0 then 3 else 2

/-- A job that never finishes: every status read reports
`PENDING`/`PROCESSING`. -/
def foreverProcessing : Nat → PollOutcome := fun _ => .statusPending

/-- A job whose first status read reports `PENDING`/`PROCESSING` and
whose second reports `COMPLETED`. -/
def quickExportResponses : Nat → PollOutcome :=
  fun i => if i = 0 then .statusPending else .statusCompleted

/-- A watch whose very first status read throws a transport error. -/
def transportFirstResponses : Nat → PollOutcome := fun _ => .transportError

/-- A watch whose first status request throws a transport error and
whose later requests report `COMPLETED`. -/
def overlapTransportResponses : Nat → PollOutcome :=
  fun i => if i = 0 then .transportError else .statusCompleted

/-- A job whose very first status read reports `FAILED`. -/
def failedFirstResponses : Nat → PollOutcome := fun _ => .statusFailed

/-- A watch whose first status read reports `PENDING`/`PROCESSING` and
whose second throws a transport error. -/
def transportSecondResponses : Nat → PollOutcome :=
  fun i => if i = 0 then .statusPending else .transportError

/-- A sample task in state `TODO`. -/
def sampleTask : Task :=
  { id := "t1"
    projectId := "p1"
    title := "Write report"
    description := none
    status := .todo
    priority := .medium
    assignedTo := none
    dueDate := none
    createdAt := "2024-01-01"
    assignee := none }

/-- A sample cached project holding `sampleTask`. -/
def sampleProject : ProjectDetail :=
  { id := "p1"
    name := "Alpha"
    description := none
    ownerId := "u1"
    createdAt := "2024-01-01"
    tasks := [sampleTask] }

/-- A cache holding `sampleProject`, not yet invalidated. -/
def sampleCache : CacheState :=
  { value := some sampleProject, invalidated := false }

/-- An empty cache (no value for the project key). -/
def emptyCache : CacheState :=
  { value := none, invalidated := false }

/-- A task update setting the status to `DONE`. -/
def setStatusDone : UpdateTaskData :=
  { title := none, description := none, status := some .done
    priority := none, assignedTo := none, dueDate := none }

/-- A task update setting the status to `IN_PROGRESS`. -/
def setStatusInProgress : UpdateTaskData :=
  { title := none, description := none, status := some .inProgress
    priority := none, assignedTo := none, dueDate := none }

/-- Optimistic write of mutation A (`IN_PROGRESS`) against the sample
cache: returns A's context (snapshot `TODO`) and the patched cache. -/
def raceMutA : MutationCtx × CacheState :=
  onMutateStep "t1" setStatusInProgress sampleCache

/-- Optimistic write of a later mutation B (`DONE`) on top of A's
patched cache. -/
def raceMutB : MutationCtx × CacheState :=
  onMutateStep "t1" setStatusDone raceMutA.2

/-- The cache after mutation B's server call succeeded and B settled:
the task's cached status is B's value `DONE`. -/
def raceAfterB : CacheState :=
  onSettledStep raceMutB.2

/-- The cache after mutation A's server call subsequently failed and A's
`onError` rollback ran with A's stale context. -/
def raceAfterRollback : CacheState :=
  onErrorStep raceMutA.1 raceAfterB

/-- A non-success response whose envelope carries code
`"ERR_INTERNAL"` and message `"boom"`. -/
def envelopeRespA : HttpResponse :=
  { ok := false
    json := some { error := some { code := some "ERR_INTERNAL", message := some "boom" }
                   payload := none }
    raw := "" }

/-- The same non-success response except for a different machine-readable
code `"ERR_OTHER"`. -/
def envelopeRespB : HttpResponse :=
  { ok := false
    json := some { error := some { code := some "ERR_OTHER", message := some "boom" }
                   payload := none }
    raw := "" }

/-- A non-success response whose envelope message is present but empty —
a falsy string in JavaScript. -/
def emptyMessageResp : HttpResponse :=
  { ok := false
    json := some { error := some { code := some "ERR_EMPTY", message := some "" }
                   payload := none }
    raw := "" }

/-- Request options carrying `Accept: application/octet-stream`. -/
def octetHeaders : Option (List (String × String)) :=
  some [("Accept", "application/octet-stream")]

/-- A failing binary response (non-success status, unparseable body). -/
def failedBinaryResp : HttpResponse :=
  { ok := false, json := none, raw := "bytes" }

/-! ## Helper lemmas about the watcher step relation -/

/-- Resolving a status request never touches the in-flight request list. -/
theorem handleResolution_pendingEq (responses : Nat → PollOutcome) (idx : Nat)
    (s : WatcherState) :
    (handleResolution responses idx s).pending = s.pending := by
  unfold handleResolution
  cases responses idx <;> rfl

/-- Folding resolutions over a list never touches the in-flight request
list. -/
theorem foldlResolutions_pendingEq (responses : Nat → PollOutcome)
    (l : List (Nat × Nat)) (s : WatcherState) :
    (l.foldl (fun acc p => handleResolution responses p.1 acc) s).pending
      = s.pending := by
  induction l generalizing s with
  | nil => rfl
  | cons x xs ih =>
      rw [List.foldl_cons, ih, handleResolution_pendingEq]

/-- A step in which every in-flight request is due leaves either nothing
in flight, or exactly the one request that the re-armed interval just
issued, resolving at the next tick (unit latency). -/
theorem watcherStep_pending_shape (responses : Nat → PollOutcome) (t : Nat)
    (s : WatcherState) (hs : ∀ p ∈ s.pending, p.2 ≤ t) :
    (watcherStep responses unitDurations t s).pending.length ≤ 1
    ∧ ∀ p ∈ (watcherStep responses unitDurations t s).pending, p.2 = t + 1 := by
  unfold watcherStep
  have hstill : (s.pending.filter fun p => decide (t < p.2)) = [] := by
    rw [List.filter_eq_nil_iff]
    intro p hp
    simpa using Nat.not_lt.mpr (hs p hp)
  simp only [hstill]
  have hfold : (List.foldl (fun acc p => handleResolution responses p.1 acc)
      { s with pending := ([] : List (Nat × Nat)) }
      (s.pending.filter fun p => decide (p.2 ≤ t))).pending = [] := by
    rw [foldlResolutions_pendingEq]
  split
  · refine ⟨?_, ?_⟩
    · simp [hfold]
    · intro p hp
      simp only [hfold, List.nil_append, List.mem_singleton] at hp
      simp [hp, unitDurations]
  · refine ⟨?_, ?_⟩
    · simp [hfold]
    · intro p hp
      simp only [hfold] at hp
      cases hp

/-- Invariant of unit-latency executions: at every tick boundary at most
one status request is in flight, and it resolves at the next tick. -/
theorem watcherRun_pending_shape (responses : Nat → PollOutcome) (n : Nat) :
    (watcherRun responses unitDurations n).pending.length ≤ 1
    ∧ ∀ p ∈ (watcherRun responses unitDurations n).pending, p.2 = n + 1 := by
  induction n with
  | zero =>
      refine ⟨Nat.zero_le 1, ?_⟩
      intro p hp
      cases hp
  | succ m ih =>
      have hs : ∀ p ∈ (watcherRun responses unitDurations m).pending,
          p.2 ≤ m + 1 := by
        intro p hp
        exact Nat.le_of_eq (ih.2 p hp)
      have := watcherStep_pending_shape responses (m + 1)
        (watcherRun responses unitDurations m) hs
      simpa [watcherRun] using this

/-- While every resolved status request reported `PENDING`/`PROCESSING`,
a unit-latency execution stays on the canonical polling trajectory
`watcherMid`. -/
theorem watcherRun_pollingPhase (responses : Nat → PollOutcome) (k : Nat)
    (hk : ∀ i, i < k → responses i = .statusPending) :
    ∀ n, n ≤ k + 1 → watcherRun responses unitDurations n = watcherMid n := by
  intro n
  induction n with
  | zero => intro _; rfl
  | succ m ih =>
      intro hm
      have hrec : watcherRun responses unitDurations m = watcherMid m :=
        ih (by omega)
      show watcherStep responses unitDurations (m + 1)
        (watcherRun responses unitDurations m) = watcherMid (m + 1)
      rw [hrec]
      cases m with
      | zero => rfl
      | succ j =>
          have hj : responses j = .statusPending := hk j (by omega)
          simp [watcherStep, watcherMid, handleResolution, hj, unitDurations,
            List.filter]

/-- Once the timer is cleared and nothing is in flight the watcher state
is absorbing: further ticks change nothing. -/
theorem watcherStep_done (responses : Nat → PollOutcome)
    (durations : Nat → Nat) (t k dl al ce : Nat) :
    watcherStep responses durations t (watcherDone k dl al ce)
      = watcherDone k dl al ce := rfl

/-- With unit latency, `PENDING`/`PROCESSING` up to request `k - 1` and
`COMPLETED` reported by request `k`, every state from tick `k + 2` on is
the absorbing completed state: timer cleared, one download triggered. -/
theorem watcherRun_completes (responses : Nat → PollOutcome) (k : Nat)
    (hk : ∀ i, i < k → responses i = .statusPending)
    (hc : responses k = .statusCompleted) :
    ∀ n, k + 2 ≤ n → watcherRun responses unitDurations n = watcherDone k 1 0 0 := by
  have hbase : watcherRun responses unitDurations (k + 2) = watcherDone k 1 0 0 := by
    show watcherStep responses unitDurations (k + 2)
      (watcherRun responses unitDurations (k + 1)) = watcherDone k 1 0 0
    rw [watcherRun_pollingPhase responses k hk (k + 1) (by omega)]
    simp [watcherStep, watcherMid, handleResolution, hc, watcherDone,
      List.filter]
  intro n
  induction n with
  | zero => intro h; omega
  | succ m ih =>
      intro hm
      rcases Nat.lt_or_ge (m + 1) (k + 3) with h | h
      · have : m + 1 = k + 2 := by omega
        rw [this]; exact hbase
      · have : watcherRun responses unitDurations m = watcherDone k 1 0 0 :=
          ih (by omega)
        show watcherStep responses unitDurations (m + 1)
          (watcherRun responses unitDurations m) = watcherDone k 1 0 0
        rw [this, watcherStep_done]

/-- With unit latency, `PENDING`/`PROCESSING` up to request `k - 1` and a
transport error thrown by request `k`, every state from tick `k + 2` on
is the absorbing errored state: timer cleared, one console error, no
download, no alert. -/
theorem watcherRun_transportTerminal (responses : Nat → PollOutcome) (k : Nat)
    (hk : ∀ i, i < k → responses i = .statusPending)
    (ht : responses k = .transportError) :
    ∀ n, k + 2 ≤ n → watcherRun responses unitDurations n = watcherDone k 0 0 1 := by
  have hbase : watcherRun responses unitDurations (k + 2) = watcherDone k 0 0 1 := by
    show watcherStep responses unitDurations (k + 2)
      (watcherRun responses unitDurations (k + 1)) = watcherDone k 0 0 1
    rw [watcherRun_pollingPhase responses k hk (k + 1) (by omega)]
    simp [watcherStep, watcherMid, handleResolution, ht, watcherDone,
      List.filter]
  intro n
  induction n with
  | zero => intro h; omega
  | succ m ih =>
      intro hm
      rcases Nat.lt_or_ge (m + 1) (k + 3) with h | h
      · have : m + 1 = k + 2 := by omega
        rw [this]; exact hbase
      · have : watcherRun responses unitDurations m = watcherDone k 0 0 1 :=
          ih (by omega)
        show watcherStep responses unitDurations (m + 1)
          (watcherRun responses unitDurations m) = watcherDone k 0 0 1
        rw [this, watcherStep_done]

/-! ## Claims about the export watcher -/

/-- Claim C1, counterexample.  The claim states that no execution of the
watcher triggers the download twice for the same export id.  In the
execution where every status read reports `COMPLETED` but the first
request takes 3 ticks and later ones 2 ticks, the fixed 1-second
`setInterval` grid issues overlapping requests: at tick 4 two in-flight
requests both resolve `COMPLETED` and the download side effect fires
twice. -/
theorem overlappingPollsDownloadTwice :
    (watcherRun completedResponses slowDurations 4).downloads = 2 := by
  rfl

/-- Claim C1, amended: when status requests never overlap (each resolves
within the 1-second interval, modelled by unit latency), a watch whose
polls report `PENDING`/`PROCESSING` up to request `k - 1` and `COMPLETED`
at request `k` triggers the download exactly once: no download and an
armed timer before the completion is processed, and from tick `k + 2` on
exactly one download with the timer cancelled, forever. -/
theorem downloadFiresExactlyOnceWithoutOverlap (responses : Nat → PollOutcome)
    (k : Nat) (hk : ∀ i, i < k → responses i = .statusPending)
    (hc : responses k = .statusCompleted) (n : Nat) :
    (n ≤ k + 1 →
      (watcherRun responses unitDurations n).downloads = 0 ∧
      (watcherRun responses unitDurations n).timerActive = true) ∧
    (k + 2 ≤ n →
      (watcherRun responses unitDurations n).downloads = 1 ∧
      (watcherRun responses unitDurations n).timerActive = false) := by
  constructor
  · intro hn
    rw [watcherRun_pollingPhase responses k hk n hn]
    exact ⟨rfl, rfl⟩
  · intro hn
    rw [watcherRun_completes responses k hk hc n hn]
    exact ⟨rfl, rfl⟩

/-- Claim C1, witness: the execution whose first poll reports
`PENDING`/`PROCESSING` and whose second reports `COMPLETED`, with unit
latency, has triggered exactly one download by tick 4 and cancelled its
timer. -/
theorem downloadFiresExactlyOnceWitness :
    (watcherRun quickExportResponses unitDurations 4).downloads = 1 ∧
    (watcherRun quickExportResponses unitDurations 4).timerActive = false :=
  (downloadFiresExactlyOnceWithoutOverlap quickExportResponses 1
    (fun i hi => by
      have h0 : i = 0 := by omega
      rw [h0]
      rfl)
    rfl 4).2 (by omega)

/-- Claim C2, counterexample.  The claim states that at every point at
most one status request is pending and that the next poll is issued only
after the previous one resolves.  With the first request taking 3 ticks,
the fixed `setInterval` grid issues a second request at tick 2 while the
first is still in flight: two requests are pending simultaneously. -/
theorem overlappingPendingRequests :
    (watcherRun completedResponses slowDurations 2).pending.length = 2 := by
  rfl

/-- Claim C2, amended: polls are issued on a fixed 1-second wall-clock
interval, so a status request that outlives the interval overlaps the
next one; only when every status request resolves within one interval
tick (unit latency) is at most one request pending at any tick
boundary. -/
theorem atMostOnePendingUnderUnitLatency (responses : Nat → PollOutcome)
    (n : Nat) :
    (watcherRun responses unitDurations n).pending.length ≤ 1 :=
  (watcherRun_pending_shape responses n).1

/-- Claim C4: the code keeps the interval timer armed with no bound on
elapsed time.  In the execution where every status read reports
`PENDING`/`PROCESSING`, after 600 ticks (ten minutes of 1-second polls,
far past the sixty-second budget stated in the design document) the
watcher is still polling: timer armed, no download, no alert, still
exporting. -/
theorem watcherNeverTimesOut :
    (watcherRun foreverProcessing unitDurations 600).timerActive = true ∧
    (watcherRun foreverProcessing unitDurations 600).downloads = 0 ∧
    (watcherRun foreverProcessing unitDurations 600).alerts = 0 ∧
    (watcherRun foreverProcessing unitDurations 600).isExporting = true := by
  have h : watcherRun foreverProcessing unitDurations 600 = watcherMid 600 :=
    watcherRun_pollingPhase foreverProcessing 600 (fun i _ => rfl) 600 (by omega)
  rw [h]
  exact ⟨rfl, rfl, rfl, rfl⟩

/-- Claim C8, counterexample.  The claim states that a transport error
during a status read is surfaced to the user in the same way as a
`FAILED` job status.  Comparing the watch whose first status read throws
with the watch whose first status read reports `FAILED`: both cancel the
timer, but the thrown error only increments the console-error count and
raises no user alert, while `FAILED` raises the alert and logs
nothing. -/
theorem transportErrorSurfacedUnlikeFailed :
    (watcherRun transportFirstResponses unitDurations 2).timerActive = false ∧
    (watcherRun transportFirstResponses unitDurations 2).alerts = 0 ∧
    (watcherRun transportFirstResponses unitDurations 2).consoleErrors = 1 ∧
    (watcherRun failedFirstResponses unitDurations 2).alerts = 1 ∧
    (watcherRun failedFirstResponses unitDurations 2).consoleErrors = 0 :=
  ⟨rfl, rfl, rfl, rfl, rfl⟩

/-- Claim C8, amended: provided status requests never overlap (each
resolves within the 1-second interval, modelled by unit latency), a
transport error during a status read is terminal for the watch exactly
like a `FAILED` status — the timer is cancelled and polling stops for
good, with no download — but it is only logged to the console (one
console error) and, unlike `FAILED`, raises no user alert.  Without the
proviso an already in-flight `COMPLETED` response can still trigger the
download after the transport error cleared the timer. -/
theorem transportErrorTerminalConsoleOnly (responses : Nat → PollOutcome)
    (k : Nat) (hk : ∀ i, i < k → responses i = .statusPending)
    (ht : responses k = .transportError) (n : Nat) (hn : k + 2 ≤ n) :
    (watcherRun responses unitDurations n).timerActive = false ∧
    (watcherRun responses unitDurations n).downloads = 0 ∧
    (watcherRun responses unitDurations n).alerts = 0 ∧
    (watcherRun responses unitDurations n).consoleErrors = 1 := by
  rw [watcherRun_transportTerminal responses k hk ht n hn]
  exact ⟨rfl, rfl, rfl, rfl⟩

/-- With overlapping requests a transport error does not guarantee the
absence of a download: when the first request throws after 3 ticks while
the second, already in flight, reports `COMPLETED`, the catch block
clears the timer and logs the console error at tick 4, yet the
`COMPLETED` continuation still fires the download.  This is why the
no-download part of the amended C8 needs the non-overlap proviso. -/
theorem overlappingTransportStillDownloads :
    (watcherRun overlapTransportResponses slowDurations 4).consoleErrors = 1 ∧
    (watcherRun overlapTransportResponses slowDurations 4).downloads = 1 :=
  ⟨rfl, rfl⟩

/-- Claim C8, witness: the watch whose first poll reports
`PENDING`/`PROCESSING` and whose second throws has, by tick 4, a
cancelled timer, no download, no alert and one console error. -/
theorem transportErrorTerminalWitness :
    (watcherRun transportSecondResponses unitDurations 4).timerActive = false ∧
    (watcherRun transportSecondResponses unitDurations 4).downloads = 0 ∧
    (watcherRun transportSecondResponses unitDurations 4).alerts = 0 ∧
    (watcherRun transportSecondResponses unitDurations 4).consoleErrors = 1 :=
  transportErrorTerminalConsoleOnly transportSecondResponses 1
    (fun i hi => by
      have h0 : i = 0 := by omega
      rw [h0]
      rfl)
    rfl 4 (by omega)

/-! ## Claims about the optimistic task-update mutation -/

/-- Claim C3, counterexample.  The claim states that a rollback never
overwrites a value written by a later successful mutation.  Run mutation
A (`IN_PROGRESS`) then mutation B (`DONE`) optimistically on the sample
cache; B's server call succeeds and settles, so the cached task status is
`DONE`; then A's server call fails and A's `onError` rollback runs with
its stale snapshot: the cached status reverts to `TODO`, clobbering B's
later successful write. -/
theorem staleRollbackClobbersLaterWrite :
    taskStatusIn raceAfterB.value "t1" = some .done ∧
    taskStatusIn raceAfterRollback.value "t1" = some .todo ∧
    TaskStatus.done ≠ TaskStatus.todo :=
  ⟨rfl, rfl, by decide⟩

/-- Claim C3, amended: the rollback in `onError` performs no staleness
check at all — whenever the captured snapshot is non-null it
unconditionally restores it, whatever value the cache currently holds
(including one written by a later successful mutation), and it is a no-op
only when the snapshot is null. -/
theorem rollbackUnconditionallyRestoresSnapshot (prev : ProjectDetail)
    (c : CacheState) :
    (onErrorStep ⟨some prev⟩ c).value = some prev ∧
    (onErrorStep ⟨none⟩ c).value = c.value :=
  ⟨rfl, rfl⟩

/-- Claim C5: applying the optimistic write and then immediately reading
the cache key returns the patched value — the project with the update
merged into the targeted task — before (independently of) the backing
network call; in particular the merged task itself is among the cached
tasks. -/
theorem optimisticWriteReadsPatchedValue (c : CacheState) (p : ProjectDetail)
    (taskId : String) (d : UpdateTaskData) (h : c.value = some p) :
    readCache (onMutateStep taskId d c).2
      = some { p with tasks := p.tasks.map fun t =>
          if t.id = taskId then mergeTask t d else t } ∧
    ∀ t, t ∈ p.tasks → t.id = taskId →
      ∃ p2, readCache (onMutateStep taskId d c).2 = some p2 ∧
        mergeTask t d ∈ p2.tasks := by
  have h1 : readCache (onMutateStep taskId d c).2
      = some { p with tasks := p.tasks.map fun t =>
          if t.id = taskId then mergeTask t d else t } := by
    simp [readCache, onMutateStep, patchProject, h]
  refine ⟨h1, ?_⟩
  intro t ht htid
  refine ⟨_, h1, ?_⟩
  rw [List.mem_map]
  exact ⟨t, ht, by rw [if_pos htid]⟩

/-- Claim C5, witness: on the sample cache, optimistically setting task
`t1` to `DONE` and reading back yields the patched project. -/
theorem optimisticWriteReadsPatchedValueWitness :
    readCache (onMutateStep "t1" setStatusDone sampleCache).2
      = some { sampleProject with tasks := sampleProject.tasks.map fun t =>
          if t.id = "t1" then mergeTask t setStatusDone else t } :=
  (optimisticWriteReadsPatchedValue sampleCache sampleProject "t1"
    setStatusDone rfl).1

/-- Claim C6: after the backing server call of a task-update mutation
resolves — success or failure alike, rollback or not — `onSettled`
invalidates the project cache key. -/
theorem settleAlwaysInvalidates (taskId : String) (d : UpdateTaskData)
    (res : MutationResult) (c : CacheState) :
    (runUpdateTaskMutation taskId d res c).invalidated = true := by
  cases res <;> rfl

/-- Claim C10: on an empty cache the whole optimistic cycle is a no-op:
the patch function returns the absent value unchanged, the captured
snapshot is absent, and after a failing backing call the rollback is
skipped, leaving the cache value absent (the key is still invalidated by
`onSettled`). -/
theorem emptyCacheOptimisticCycleNoOp (taskId : String) (d : UpdateTaskData)
    (c : CacheState) (h : c.value = none) :
    (onMutateStep taskId d c).2.value = none ∧
    (onMutateStep taskId d c).1.previousProject = none ∧
    (runUpdateTaskMutation taskId d .failure c).value = none := by
  refine ⟨?_, ?_, ?_⟩ <;>
    simp [onMutateStep, runUpdateTaskMutation, onErrorStep, onSettledStep,
      patchProject, h]

/-- Claim C10, witness: the failed optimistic cycle on the concrete empty
cache leaves no cached value and does not crash (it is a total
computation). -/
theorem emptyCacheOptimisticCycleNoOpWitness :
    (runUpdateTaskMutation "t1" setStatusDone .failure emptyCache).value
      = none :=
  (emptyCacheOptimisticCycleNoOp "t1" setStatusDone emptyCache rfl).2.2

/-! ## Claims about the API gateway client -/

/-- Claim C7, counterexample.  The claim states that the raised error
carries the server-supplied machine-readable code.  Two non-success
responses that differ only in their envelope code (`"ERR_INTERNAL"`
versus `"ERR_OTHER"`) produce the very same error, carrying only the
message `"boom"`: the thrown `new Error(data.error?.message || ...)`
drops the code. -/
theorem raisedErrorIndependentOfCode :
    apiRequest none envelopeRespA = .error (.requestFailed "boom") ∧
    apiRequest none envelopeRespA = apiRequest none envelopeRespB ∧
    envelopeRespA.json ≠ envelopeRespB.json :=
  ⟨rfl, rfl, by decide⟩

/-- Claim C7, amended: on a non-success status of a non-binary request
whose body parses, the client raises an error carrying the
server-supplied human-readable message only (the machine-readable code is
not propagated), and falls back to the generic `"Request failed"` when
the envelope carries no message or — by JavaScript falsiness of the
`||` operator — an empty message. -/
theorem requestFailedCarriesMessageOnly
    (optHeaders : Option (List (String × String))) (resp : HttpResponse)
    (body : ResponseBody) (hacc : acceptsOctetStream optHeaders = false)
    (hok : resp.ok = false) (hjson : resp.json = some body) :
    apiRequest optHeaders resp
      = .error (.requestFailed
          (jsStringOr (body.error.bind ErrorInfo.message) "Request failed")) ∧
    (∀ m, body.error.bind ErrorInfo.message = some m → m ≠ "" →
      apiRequest optHeaders resp = .error (.requestFailed m)) ∧
    (body.error.bind ErrorInfo.message = none →
      apiRequest optHeaders resp
        = .error (.requestFailed "Request failed")) ∧
    (body.error.bind ErrorInfo.message = some "" →
      apiRequest optHeaders resp
        = .error (.requestFailed "Request failed")) := by
  have h1 : apiRequest optHeaders resp
      = .error (.requestFailed
          (jsStringOr (body.error.bind ErrorInfo.message) "Request failed")) := by
    simp [apiRequest, hacc, hjson, hok]
  refine ⟨h1, ?_, ?_, ?_⟩
  · intro m hm hne
    rw [h1, hm]
    simp [jsStringOr, hne]
  · intro hm
    rw [h1, hm]
    rfl
  · intro hm
    rw [h1, hm]
    rfl

/-- Claim C7, witness: the concrete non-success response with envelope
message `"boom"` raises exactly the error `"boom"`, and the one whose
envelope message is the empty (falsy) string raises the generic
`"Request failed"`. -/
theorem requestFailedCarriesMessageOnlyWitness :
    apiRequest none envelopeRespA = .error (.requestFailed "boom") ∧
    apiRequest none emptyMessageResp = .error (.requestFailed "Request failed") :=
  ⟨(requestFailedCarriesMessageOnly none envelopeRespA
      { error := some { code := some "ERR_INTERNAL", message := some "boom" }
        payload := none }
      rfl rfl rfl).2.1 "boom" rfl (by decide),
   (requestFailedCarriesMessageOnly none emptyMessageResp
      { error := some { code := some "ERR_EMPTY", message := some "" }
        payload := none }
      rfl rfl rfl).2.2.2 rfl⟩

/-- Claim C9: a request whose `Accept` header is
`application/octet-stream` gets the raw body back as a blob with no
status check at all — whatever the response's `ok` flag and body, no
error is raised. -/
theorem binaryRequestSkipsStatusCheck
    (optHeaders : Option (List (String × String))) (resp : HttpResponse)
    (hacc : acceptsOctetStream optHeaders = true) :
    apiRequest optHeaders resp = .ok (.blobData resp.raw) := by
  simp [apiRequest, hacc]

/-- Claim C9, witness: the failing binary response (non-success status,
unparseable body) still comes back as a successful blob. -/
theorem binaryRequestSkipsStatusCheckWitness :
    failedBinaryResp.ok = false ∧
    apiRequest octetHeaders failedBinaryResp = .ok (.blobData "bytes") :=
  ⟨rfl, binaryRequestSkipsStatusCheck octetHeaders failedBinaryResp rfl⟩

end TaskTracker
